import Mathlib

/-!
Verification of the train-simulation core of the AI_TrainMax repository.

The source is TypeScript/React; numbers are JS doubles, modelled here as
exact rationals.  The two source files embedded are
src/BspAkaltaraSimulation.tsx (the piecewise time-to-position model and
the simulation clock tick) and src/MapComponent.tsx (the overlay
reconciliation and the held-train blink timer).
-/

/-- TOTAL_DISTANCE from BspAkaltaraSimulation.tsx line 15: the route length
BSP (0) -> Akaltara (40) -> Champa (65), in km. -/
def TOTAL_DISTANCE : ℚ := 65

/-- One entry of the trainsConfig array (BspAkaltaraSimulation.tsx lines 7-12). -/
structure TrainSimState where
  id : String
  name : String
  colorClass : String
  trackIndex : ℕ

/-- The trainsConfig array (BspAkaltaraSimulation.tsx lines 21-46). -/
def trainsConfig : List TrainSimState :=
  [ { id := "MEMU_LOCAL", name := "MEMU Local (On Time)",
      colorClass := "bg-emerald-400", trackIndex := 0 },
    { id := "RAJDHANI", name := "Rajdhani Express (+15m)",
      colorClass := "bg-yellow-400", trackIndex := 1 },
    { id := "JANSHATABDI", name := "Janshatabdi (+30m)",
      colorClass := "bg-red-400", trackIndex := 1 },
    { id := "UTKAL_EXP", name := "Utkal Express (+15m)",
      colorClass := "bg-sky-400", trackIndex := 2 } ]

/-- The clamp helper (BspAkaltaraSimulation.tsx lines 49-50):
Math.max(min, Math.min(max, v)). -/
def clamp (v mn mx : ℚ) : ℚ := max mn (min mx v)

/-- getPositionKm (BspAkaltaraSimulation.tsx lines 55-133).  The TypeScript
union type TrainId is embedded as String so that the final fallback
return 0 (line 132) is reachable, as it is at runtime for an id outside
the union.  Each branch mirrors the source if-chain; the local dt
variables are inlined. -/
def getPositionKm (trainId : String) (tMin : ℚ) : ℚ :=
  if trainId = "MEMU_LOCAL" then
    if tMin < 10 then 0
    else if tMin < 50 then clamp (tMin - 10) 0 40
    else if tMin < 60 then 40
    else if tMin ≤ 85 then clamp (40 + ((tMin - 60) * 25) / 25) 40 65
    else 65
  else if trainId = "RAJDHANI" then
    if tMin < 25 then 0
    else if tMin < 30 then 0
    else if tMin < 50 then clamp (((tMin - 30) * 40) / 20) 0 40
    else if tMin ≤ 70 then clamp (40 + ((tMin - 50) * 25) / 20) 40 65
    else 65
  else if trainId = "JANSHATABDI" then
    if tMin < 50 then 65
    else if tMin < 60 then 65
    else if tMin < 95 then clamp (65 - ((tMin - 60) * 25) / 35) 40 65
    else if tMin < 105 then 40
    else if tMin ≤ 135 then clamp (40 - ((tMin - 105) * 40) / 30) 0 40
    else 0
  else if trainId = "UTKAL_EXP" then
    if tMin < 60 then 65
    else if tMin < 65 then 65
    else if tMin < 95 then clamp (65 - ((tMin - 65) * 25) / 30) 40 65
    else if tMin ≤ 125 then clamp (40 - ((tMin - 95) * 40) / 30) 0 40
    else 0
  else 0

/-- One step of the animation-loop clock (BspAkaltaraSimulation.tsx lines
147-154): next = prev + speed * 0.2, looping to 0 past the 150-minute
horizon.  The JS literal 0.2 is modelled as the rational 1/5. -/
def tickNext (prev speed : ℚ) : ℚ :=
  if prev + speed * (1 / 5) > 150 then 0 else prev + speed * (1 / 5)

/-- Left-limit agreement of f at boundary b, witnessed by a Lipschitz-style
bound with constant K on the window of width w just left of b: the values
of f approach f b linearly as t approaches b from the left, so the left
limit of f at b equals f b. -/
def leftLimEq (f : ℚ → ℚ) (b w K : ℚ) : Prop :=
  ∀ t : ℚ, b - w ≤ t → t < b → |f t - f b| ≤ K * (b - t)

-- Closed forms of getPositionKm on each branch of the source if-chain.

lemma memu_s0 (t : ℚ) (h : t < 10) : getPositionKm "MEMU_LOCAL" t = 0 := by
  unfold getPositionKm
  rw [if_pos rfl, if_pos h]

lemma memu_s1 (t : ℚ) (h1 : 10 ≤ t) (h2 : t < 50) :
    getPositionKm "MEMU_LOCAL" t = t - 10 := by
  unfold getPositionKm
  rw [if_pos rfl, if_neg (not_lt.mpr h1), if_pos h2]
  unfold clamp
  rw [min_eq_right (by linarith), max_eq_right (by linarith)]

lemma memu_s2 (t : ℚ) (h1 : 50 ≤ t) (h2 : t < 60) :
    getPositionKm "MEMU_LOCAL" t = 40 := by
  unfold getPositionKm
  rw [if_pos rfl, if_neg (not_lt.mpr (by linarith)), if_neg (not_lt.mpr h1), if_pos h2]

lemma memu_s3 (t : ℚ) (h1 : 60 ≤ t) (h2 : t ≤ 85) :
    getPositionKm "MEMU_LOCAL" t = t - 20 := by
  unfold getPositionKm
  rw [if_pos rfl, if_neg (not_lt.mpr (by linarith)), if_neg (not_lt.mpr (by linarith)),
    if_neg (not_lt.mpr h1), if_pos h2]
  have hv : 40 + ((t - 60) * 25) / 25 = t - 20 := by ring
  rw [hv]
  unfold clamp
  rw [min_eq_right (by linarith), max_eq_right (by linarith)]

lemma memu_s4 (t : ℚ) (h : 85 < t) : getPositionKm "MEMU_LOCAL" t = 65 := by
  unfold getPositionKm
  rw [if_pos rfl, if_neg (not_lt.mpr (by linarith)), if_neg (not_lt.mpr (by linarith)),
    if_neg (not_lt.mpr (by linarith)), if_neg (not_le.mpr h)]

lemma raj_s0 (t : ℚ) (h : t < 30) : getPositionKm "RAJDHANI" t = 0 := by
  unfold getPositionKm
  rw [if_neg (by decide), if_pos rfl]
  rcases lt_or_ge t 25 with h25 | h25
  · rw [if_pos h25]
  · rw [if_neg (not_lt.mpr h25), if_pos h]

lemma raj_s1 (t : ℚ) (h1 : 30 ≤ t) (h2 : t < 50) :
    getPositionKm "RAJDHANI" t = 2 * t - 60 := by
  unfold getPositionKm
  rw [if_neg (by decide), if_pos rfl, if_neg (not_lt.mpr (by linarith)),
    if_neg (not_lt.mpr h1), if_pos h2]
  have hv : ((t - 30) * 40) / 20 = 2 * t - 60 := by ring
  rw [hv]
  unfold clamp
  rw [min_eq_right (by linarith), max_eq_right (by linarith)]

lemma raj_s2 (t : ℚ) (h1 : 50 ≤ t) (h2 : t ≤ 70) :
    getPositionKm "RAJDHANI" t = (5 * t - 90) / 4 := by
  unfold getPositionKm
  rw [if_neg (by decide), if_pos rfl, if_neg (not_lt.mpr (by linarith)),
    if_neg (not_lt.mpr (by linarith)), if_neg (not_lt.mpr h1), if_pos h2]
  have hv : 40 + ((t - 50) * 25) / 20 = (5 * t - 90) / 4 := by ring
  rw [hv]
  unfold clamp
  rw [min_eq_right (by linarith), max_eq_right (by linarith)]

lemma raj_s3 (t : ℚ) (h : 70 < t) : getPositionKm "RAJDHANI" t = 65 := by
  unfold getPositionKm
  rw [if_neg (by decide), if_pos rfl, if_neg (not_lt.mpr (by linarith)),
    if_neg (not_lt.mpr (by linarith)), if_neg (not_lt.mpr (by linarith)),
    if_neg (not_le.mpr h)]

lemma jan_s0 (t : ℚ) (h : t < 60) : getPositionKm "JANSHATABDI" t = 65 := by
  unfold getPositionKm
  rw [if_neg (by decide), if_neg (by decide), if_pos rfl]
  rcases lt_or_ge t 50 with h50 | h50
  · rw [if_pos h50]
  · rw [if_neg (not_lt.mpr h50), if_pos h]

lemma jan_s1 (t : ℚ) (h1 : 60 ≤ t) (h2 : t < 95) :
    getPositionKm "JANSHATABDI" t = (755 - 5 * t) / 7 := by
  unfold getPositionKm
  rw [if_neg (by decide), if_neg (by decide), if_pos rfl,
    if_neg (not_lt.mpr (by linarith)), if_neg (not_lt.mpr h1), if_pos h2]
  have hv : 65 - ((t - 60) * 25) / 35 = (755 - 5 * t) / 7 := by ring
  rw [hv]
  unfold clamp
  rw [min_eq_right (by linarith), max_eq_right (by linarith)]

lemma jan_s2 (t : ℚ) (h1 : 95 ≤ t) (h2 : t < 105) :
    getPositionKm "JANSHATABDI" t = 40 := by
  unfold getPositionKm
  rw [if_neg (by decide), if_neg (by decide), if_pos rfl,
    if_neg (not_lt.mpr (by linarith)), if_neg (not_lt.mpr (by linarith)),
    if_neg (not_lt.mpr h1), if_pos h2]

lemma jan_s3 (t : ℚ) (h1 : 105 ≤ t) (h2 : t ≤ 135) :
    getPositionKm "JANSHATABDI" t = (540 - 4 * t) / 3 := by
  unfold getPositionKm
  rw [if_neg (by decide), if_neg (by decide), if_pos rfl,
    if_neg (not_lt.mpr (by linarith)), if_neg (not_lt.mpr (by linarith)),
    if_neg (not_lt.mpr (by linarith)), if_neg (not_lt.mpr h1), if_pos h2]
  have hv : 40 - ((t - 105) * 40) / 30 = (540 - 4 * t) / 3 := by ring
  rw [hv]
  unfold clamp
  rw [min_eq_right (by linarith), max_eq_right (by linarith)]

lemma jan_s4 (t : ℚ) (h : 135 < t) : getPositionKm "JANSHATABDI" t = 0 := by
  unfold getPositionKm
  rw [if_neg (by decide), if_neg (by decide), if_pos rfl,
    if_neg (not_lt.mpr (by linarith)), if_neg (not_lt.mpr (by linarith)),
    if_neg (not_lt.mpr (by linarith)), if_neg (not_lt.mpr (by linarith)),
    if_neg (not_le.mpr h)]

lemma utkal_s0 (t : ℚ) (h : t < 65) : getPositionKm "UTKAL_EXP" t = 65 := by
  unfold getPositionKm
  rw [if_neg (by decide), if_neg (by decide), if_neg (by decide), if_pos rfl]
  rcases lt_or_ge t 60 with h60 | h60
  · rw [if_pos h60]
  · rw [if_neg (not_lt.mpr h60), if_pos h]

lemma utkal_s1 (t : ℚ) (h1 : 65 ≤ t) (h2 : t < 95) :
    getPositionKm "UTKAL_EXP" t = (715 - 5 * t) / 6 := by
  unfold getPositionKm
  rw [if_neg (by decide), if_neg (by decide), if_neg (by decide), if_pos rfl,
    if_neg (not_lt.mpr (by linarith)), if_neg (not_lt.mpr h1), if_pos h2]
  have hv : 65 - ((t - 65) * 25) / 30 = (715 - 5 * t) / 6 := by ring
  rw [hv]
  unfold clamp
  rw [min_eq_right (by linarith), max_eq_right (by linarith)]

lemma utkal_s2 (t : ℚ) (h1 : 95 ≤ t) (h2 : t ≤ 125) :
    getPositionKm "UTKAL_EXP" t = (500 - 4 * t) / 3 := by
  unfold getPositionKm
  rw [if_neg (by decide), if_neg (by decide), if_neg (by decide), if_pos rfl,
    if_neg (not_lt.mpr (by linarith)), if_neg (not_lt.mpr (by linarith)),
    if_neg (not_lt.mpr h1), if_pos h2]
  have hv : 40 - ((t - 95) * 40) / 30 = (500 - 4 * t) / 3 := by ring
  rw [hv]
  unfold clamp
  rw [min_eq_right (by linarith), max_eq_right (by linarith)]

lemma utkal_s3 (t : ℚ) (h : 125 < t) : getPositionKm "UTKAL_EXP" t = 0 := by
  unfold getPositionKm
  rw [if_neg (by decide), if_neg (by decide), if_neg (by decide), if_pos rfl,
    if_neg (not_lt.mpr (by linarith)), if_neg (not_lt.mpr (by linarith)),
    if_neg (not_lt.mpr (by linarith)), if_neg (not_le.mpr h)]

/-- Modelled from the spec: the TrainData record of src/types/types.ts is not
under src/; its shape is taken from the fields MapComponent.tsx reads
(train_no, train_name, status, priority, current_lat, current_lon) and
from the spec sentence that live snapshots may have missing or partial
fields per entity, so the coordinate fields are Option-valued. -/
structure TrainData where
  train_no : String
  train_name : String
  status : String
  priority : String
  current_lat : Option ℚ
  current_lon : Option ℚ

/-- JavaScript truthiness of a possibly-missing numeric field, as tested by
the filter t.current_lat and t.current_lon in MapComponent.tsx line 161:
null/undefined and 0 are falsy, every other number is truthy. -/
def truthy : Option ℚ → Bool
  | none => false
  | some x => decide (x ≠ 0)

/-- One rendered GeoJSON feature as built in MapComponent.tsx lines 162-172. -/
structure Feature where
  coordinates : ℚ × ℚ
  props : TrainData
  train_label : String

/-- The feature built for one train (MapComponent.tsx lines 162-172):
a Point at (current_lon, current_lat) whose properties copy the train
record plus a train_label. -/
def toFeature (t : TrainData) : Feature :=
  { coordinates := (t.current_lon.getD 0, t.current_lat.getD 0),
    props := t,
    train_label := t.train_no ++ " " ++ t.train_name }

/-- The reconciliation pass of MapComponent.tsx lines 160-177: filter the
snapshot to trains with truthy coordinates, map each to its feature, and
replace the whole trains-source collection with the result. -/
def renderFeatures (trains : List TrainData) : List Feature :=
  (trains.filter fun t => truthy t.current_lat && truthy t.current_lon).map toFeature

/-- The state owned by the blink effect (MapComponent.tsx lines 181-202):
the visible flag closed over by the interval callback, plus the
circle-opacity currently applied to Held features. -/
structure BlinkState where
  visible : Bool
  heldOpacity : ℚ

/-- The state when the blink timer starts: visible is initialised to true
(line 185) and the layer was created with circle-opacity 1 (line 90). -/
def blinkInit : BlinkState :=
  { visible := true, heldOpacity := 1 }

/-- One firing of the 500 ms blink interval (MapComponent.tsx lines 186-199):
the callback applies opacity visible ? 1 : 0.2 to Held features (0.2
modelled as the rational 1/5), then flips visible. -/
def blinkStep (s : BlinkState) : BlinkState :=
  { visible := !s.visible, heldOpacity := if s.visible then 1 else 1 / 5 }

/-- Blink state after n firings of the interval, i.e. after n times the
500 ms cadence of elapsed real time. -/
def blinkAfter : ℕ → BlinkState
  | 0 => blinkInit
  | n + 1 => blinkStep (blinkAfter n)

/-- The paint and data state of the trains-layer that the blink callback can
touch (MapComponent.tsx lines 73-92): the feature collection of its
source, and its paint properties.  The installed circle-opacity
expression is represented by its denotation, a function from the status
property of a feature to the resulting opacity; circle-color likewise
maps the priority property to a color. -/
structure TrainsLayer where
  features : List Feature
  circleRadius : ℚ
  circleStrokeWidth : ℚ
  circleStrokeColor : String
  circleColor : String → String
  circleOpacity : String → ℚ

/-- Denotation of the opacityExpr installed by the blink callback
(MapComponent.tsx lines 190-195): Held features get visible ? 1 : 0.2,
every other status gets 1. -/
def blinkOpacityExpr (visible : Bool) (status : String) : ℚ :=
  if status = "Held" then (if visible then 1 else 1 / 5) else 1

/-- Effect of one blink firing on the trains-layer (MapComponent.tsx line
197): setPaintProperty replaces only the circle-opacity paint property
with the new expression. -/
def applyBlinkTick (visible : Bool) (s : TrainsLayer) : TrainsLayer :=
  { s with circleOpacity := blinkOpacityExpr visible }

-- Concrete sample data used by the witness theorems.

/-- A snapshot entity with valid coordinates. -/
def sampleGood : TrainData :=
  { train_no := "12859", train_name := "Gitanjali Express", status := "Running",
    priority := "High", current_lat := some 22, current_lon := some 82 }

/-- A snapshot entity lacking a latitude, hence with no valid coordinates. -/
def sampleBad : TrainData :=
  { train_no := "18029", train_name := "Shalimar Express", status := "Held",
    priority := "Medium", current_lat := none, current_lon := some 82 }

/-- A concrete trains-layer state. -/
def sampleLayer : TrainsLayer :=
  { features := [toFeature sampleGood], circleRadius := 8, circleStrokeWidth := 2,
    circleStrokeColor := "#ffffff", circleColor := fun _ => "#EF4444",
    circleOpacity := fun _ => 1 }

-- Global range bounds for each configured train, by case split on the branches.

lemma memu_bounds (t : ℚ) :
    0 ≤ getPositionKm "MEMU_LOCAL" t ∧ getPositionKm "MEMU_LOCAL" t ≤ 65 := by
  rcases lt_or_ge t 10 with h | h
  · rw [memu_s0 t h]; norm_num
  rcases lt_or_ge t 50 with h2 | h2
  · rw [memu_s1 t h h2]; constructor <;> linarith
  rcases lt_or_ge t 60 with h3 | h3
  · rw [memu_s2 t h2 h3]; norm_num
  rcases le_or_lt t 85 with h4 | h4
  · rw [memu_s3 t h3 h4]; constructor <;> linarith
  · rw [memu_s4 t h4]; norm_num

lemma raj_bounds (t : ℚ) :
    0 ≤ getPositionKm "RAJDHANI" t ∧ getPositionKm "RAJDHANI" t ≤ 65 := by
  rcases lt_or_ge t 30 with h | h
  · rw [raj_s0 t h]; norm_num
  rcases lt_or_ge t 50 with h2 | h2
  · rw [raj_s1 t h h2]; constructor <;> linarith
  rcases le_or_lt t 70 with h3 | h3
  · rw [raj_s2 t h2 h3]; constructor <;> linarith
  · rw [raj_s3 t h3]; norm_num

lemma jan_bounds (t : ℚ) :
    0 ≤ getPositionKm "JANSHATABDI" t ∧ getPositionKm "JANSHATABDI" t ≤ 65 := by
  rcases lt_or_ge t 60 with h | h
  · rw [jan_s0 t h]; norm_num
  rcases lt_or_ge t 95 with h2 | h2
  · rw [jan_s1 t h h2]; constructor <;> linarith
  rcases lt_or_ge t 105 with h3 | h3
  · rw [jan_s2 t h2 h3]; norm_num
  rcases le_or_lt t 135 with h4 | h4
  · rw [jan_s3 t h3 h4]; constructor <;> linarith
  · rw [jan_s4 t h4]; norm_num

lemma utkal_bounds (t : ℚ) :
    0 ≤ getPositionKm "UTKAL_EXP" t ∧ getPositionKm "UTKAL_EXP" t ≤ 65 := by
  rcases lt_or_ge t 65 with h | h
  · rw [utkal_s0 t h]; norm_num
  rcases lt_or_ge t 95 with h2 | h2
  · rw [utkal_s1 t h h2]; constructor <;> linarith
  rcases le_or_lt t 125 with h3 | h3
  · rw [utkal_s2 t h2 h3]; constructor <;> linarith
  · rw [utkal_s3 t h3]; norm_num

/-- C1: for MEMU_LOCAL (held at 0 on [0,10), linear 0 to 40 on [10,50), held
at 40 on [50,60)), the position function returns exactly 0 at t = 0,
exactly 20 at t = 30, and exactly 40 at t = 55. -/
theorem c1_memu_concrete_values :
    getPositionKm "MEMU_LOCAL" 0 = 0 ∧ getPositionKm "MEMU_LOCAL" 30 = 20 ∧
    getPositionKm "MEMU_LOCAL" 55 = 40 := by
  refine ⟨?_, ?_, ?_⟩
  · rw [memu_s0 0 (by norm_num)]
  · rw [memu_s1 30 (by norm_num) (by norm_num)]; norm_num
  · rw [memu_s2 55 (by norm_num) (by norm_num)]

/-- C2 counterexample: there is no time t with 30 ≤ t < 50 — that is, no
time strictly before t = 50 at which RAJDHANI has started moving — where
the RAJDHANI and MEMU_LOCAL progress curves are equal: on [30,50) RAJDHANI
evaluates to 2t - 60 and MEMU_LOCAL to t - 10, which agree only at t = 50,
so the claimed strict-before-50 crossing does not exist in the code. -/
theorem c2_counterexample :
    ¬ ∃ t : ℚ, 30 ≤ t ∧ t < 50 ∧
      getPositionKm "RAJDHANI" t = getPositionKm "MEMU_LOCAL" t := by
  rintro ⟨t, h1, h2, heq⟩
  rw [raj_s1 t h1 h2, memu_s1 t (by linarith) h2] at heq
  linarith

/-- C2 (amended): RAJDHANI approaches MEMU_LOCAL strictly from below for the
whole of [30,50) and the two curves meet exactly at t = 50, where both
evaluate to progress 40; both curves are left-continuous at t = 50, so
neither has a discontinuity at the meeting point. -/
theorem c2_amended_meet_at_50 :
    (∀ t : ℚ, 30 ≤ t → t < 50 →
      getPositionKm "RAJDHANI" t < getPositionKm "MEMU_LOCAL" t) ∧
    getPositionKm "RAJDHANI" 50 = 40 ∧
    getPositionKm "MEMU_LOCAL" 50 = 40 ∧
    leftLimEq (getPositionKm "MEMU_LOCAL") 50 5 1 ∧
    leftLimEq (getPositionKm "RAJDHANI") 50 5 2 := by
  have hr50 : getPositionKm "RAJDHANI" 50 = 40 := by
    rw [raj_s2 50 le_rfl (by norm_num)]; norm_num
  have hm50 : getPositionKm "MEMU_LOCAL" 50 = 40 :=
    memu_s2 50 le_rfl (by norm_num)
  refine ⟨?_, hr50, hm50, ?_, ?_⟩
  · intro t h1 h2
    rw [raj_s1 t h1 h2, memu_s1 t (by linarith) h2]
    linarith
  · intro t h1 h2
    rw [memu_s1 t (by linarith) h2, hm50, abs_le]
    constructor <;> linarith
  · intro t h1 h2
    rw [raj_s1 t (by linarith) h2, hr50, abs_le]
    constructor <;> linarith

/-- Witness for the amended C2 at the concrete time t = 40. -/
theorem c2_amended_meet_at_50_witness :
    getPositionKm "RAJDHANI" 40 < getPositionKm "MEMU_LOCAL" 40 :=
  c2_amended_meet_at_50.1 40 (by norm_num) (by norm_num)

/-- C3: from any virtual time prev in [0,150] and any positive speed factor,
one clock step yields prev + speed * 0.2 when that does not exceed the
horizon 150, wraps to exactly 0 when it would exceed 150, and in all
cases lands back inside [0,150]. -/
theorem c3_tick_wraps_and_bounded :
    ∀ prev speed : ℚ, 0 ≤ prev → prev ≤ 150 → 0 < speed →
      (prev + speed * (1 / 5) ≤ 150 → tickNext prev speed = prev + speed * (1 / 5)) ∧
      (150 < prev + speed * (1 / 5) → tickNext prev speed = 0) ∧
      0 ≤ tickNext prev speed ∧ tickNext prev speed ≤ 150 := by
  intro prev speed h0 h150 hs
  unfold tickNext
  rcases le_or_lt (prev + speed * (1 / 5)) 150 with h | h
  · rw [if_neg (not_lt.mpr h)]
    exact ⟨fun _ => rfl, fun hc => absurd hc (not_lt.mpr h), by linarith, h⟩
  · rw [if_pos h]
    exact ⟨fun hc => absurd h (not_lt.mpr hc), fun _ => rfl, le_rfl, by norm_num⟩

/-- Witness for C3 at prev = 100, speed = 5: the step lands at 101. -/
theorem c3_tick_wraps_and_bounded_witness :
    tickNext 100 5 = 101 ∧ 0 ≤ tickNext 100 5 ∧ tickNext 100 5 ≤ 150 := by
  obtain ⟨h1, _, h3, h4⟩ :=
    c3_tick_wraps_and_bounded 100 5 (by norm_num) (by norm_num) (by norm_num)
  exact ⟨by rw [h1 (by norm_num)]; norm_num, h3, h4⟩

/-- C9: the position function is total and, for a train id matching none of
the four configured trains, returns the fallback value 0 at every time t,
negative, in-schedule, or past the horizon alike. -/
theorem c9_unknown_id_fallback :
    ∀ (id : String) (t : ℚ),
      id ≠ "MEMU_LOCAL" → id ≠ "RAJDHANI" → id ≠ "JANSHATABDI" → id ≠ "UTKAL_EXP" →
      getPositionKm id t = 0 := by
  intro id t h1 h2 h3 h4
  unfold getPositionKm
  rw [if_neg h1, if_neg h2, if_neg h3, if_neg h4]

/-- Witness for C9 with an id outside the configured set and a negative time. -/
theorem c9_unknown_id_fallback_witness :
    getPositionKm "VANDE_BHARAT" (-3) = 0 :=
  c9_unknown_id_fallback "VANDE_BHARAT" (-3) (by decide) (by decide) (by decide)
    (by decide)

/-- C4: for every one of the four configured trains and every time t, the
evaluated progress lies in [0, TOTAL_DISTANCE] = [0, 65]; and within each
linear segment the value additionally stays inside the closed interval
spanned by that segment's start and end progress. -/
theorem c4_progress_bounded :
    (∀ c ∈ trainsConfig, ∀ t : ℚ,
      0 ≤ getPositionKm c.id t ∧ getPositionKm c.id t ≤ TOTAL_DISTANCE) ∧
    (∀ t : ℚ, 10 ≤ t → t < 50 →
      0 ≤ getPositionKm "MEMU_LOCAL" t ∧ getPositionKm "MEMU_LOCAL" t ≤ 40) ∧
    (∀ t : ℚ, 60 ≤ t → t ≤ 85 →
      40 ≤ getPositionKm "MEMU_LOCAL" t ∧ getPositionKm "MEMU_LOCAL" t ≤ 65) ∧
    (∀ t : ℚ, 30 ≤ t → t < 50 →
      0 ≤ getPositionKm "RAJDHANI" t ∧ getPositionKm "RAJDHANI" t ≤ 40) ∧
    (∀ t : ℚ, 50 ≤ t → t ≤ 70 →
      40 ≤ getPositionKm "RAJDHANI" t ∧ getPositionKm "RAJDHANI" t ≤ 65) ∧
    (∀ t : ℚ, 60 ≤ t → t < 95 →
      40 ≤ getPositionKm "JANSHATABDI" t ∧ getPositionKm "JANSHATABDI" t ≤ 65) ∧
    (∀ t : ℚ, 105 ≤ t → t ≤ 135 →
      0 ≤ getPositionKm "JANSHATABDI" t ∧ getPositionKm "JANSHATABDI" t ≤ 40) ∧
    (∀ t : ℚ, 65 ≤ t → t < 95 →
      40 ≤ getPositionKm "UTKAL_EXP" t ∧ getPositionKm "UTKAL_EXP" t ≤ 65) ∧
    (∀ t : ℚ, 95 ≤ t → t ≤ 125 →
      0 ≤ getPositionKm "UTKAL_EXP" t ∧ getPositionKm "UTKAL_EXP" t ≤ 40) := by
  refine ⟨?_, ?_, ?_, ?_, ?_, ?_, ?_, ?_, ?_⟩
  · intro c hc t
    simp only [trainsConfig, List.mem_cons, List.not_mem_nil, or_false] at hc
    rcases hc with rfl | rfl | rfl | rfl
    · exact memu_bounds t
    · exact raj_bounds t
    · exact jan_bounds t
    · exact utkal_bounds t
  · intro t h1 h2
    rw [memu_s1 t h1 h2]; constructor <;> linarith
  · intro t h1 h2
    rw [memu_s3 t h1 h2]; constructor <;> linarith
  · intro t h1 h2
    rw [raj_s1 t h1 h2]; constructor <;> linarith
  · intro t h1 h2
    rw [raj_s2 t h1 h2]; constructor <;> linarith
  · intro t h1 h2
    rw [jan_s1 t h1 h2]; constructor <;> linarith
  · intro t h1 h2
    rw [jan_s3 t h1 h2]; constructor <;> linarith
  · intro t h1 h2
    rw [utkal_s1 t h1 h2]; constructor <;> linarith
  · intro t h1 h2
    rw [utkal_s2 t h1 h2]; constructor <;> linarith

/-- Witness for C4: global bounds for MEMU_LOCAL at t = 30 and the segment
bound of its [10,50) linear segment at the same time. -/
theorem c4_progress_bounded_witness :
    (0 ≤ getPositionKm "MEMU_LOCAL" 30 ∧ getPositionKm "MEMU_LOCAL" 30 ≤ TOTAL_DISTANCE) ∧
    (0 ≤ getPositionKm "MEMU_LOCAL" 30 ∧ getPositionKm "MEMU_LOCAL" 30 ≤ 40) := by
  obtain ⟨hall, hseg, -⟩ := c4_progress_bounded
  exact ⟨hall ⟨"MEMU_LOCAL", "MEMU Local (On Time)", "bg-emerald-400", 0⟩
    (by simp [trainsConfig]) 30, hseg 30 (by norm_num) (by norm_num)⟩

/-- C6: within every linear segment of every configured train, the position
is monotone in time, non-decreasing on segments whose progress increases
and non-increasing on segments whose progress decreases. -/
theorem c6_monotone_within_linear_segments :
    (∀ t1 t2 : ℚ, 10 ≤ t1 → t1 < t2 → t2 < 50 →
      getPositionKm "MEMU_LOCAL" t1 ≤ getPositionKm "MEMU_LOCAL" t2) ∧
    (∀ t1 t2 : ℚ, 60 ≤ t1 → t1 < t2 → t2 ≤ 85 →
      getPositionKm "MEMU_LOCAL" t1 ≤ getPositionKm "MEMU_LOCAL" t2) ∧
    (∀ t1 t2 : ℚ, 30 ≤ t1 → t1 < t2 → t2 < 50 →
      getPositionKm "RAJDHANI" t1 ≤ getPositionKm "RAJDHANI" t2) ∧
    (∀ t1 t2 : ℚ, 50 ≤ t1 → t1 < t2 → t2 ≤ 70 →
      getPositionKm "RAJDHANI" t1 ≤ getPositionKm "RAJDHANI" t2) ∧
    (∀ t1 t2 : ℚ, 60 ≤ t1 → t1 < t2 → t2 < 95 →
      getPositionKm "JANSHATABDI" t2 ≤ getPositionKm "JANSHATABDI" t1) ∧
    (∀ t1 t2 : ℚ, 105 ≤ t1 → t1 < t2 → t2 ≤ 135 →
      getPositionKm "JANSHATABDI" t2 ≤ getPositionKm "JANSHATABDI" t1) ∧
    (∀ t1 t2 : ℚ, 65 ≤ t1 → t1 < t2 → t2 < 95 →
      getPositionKm "UTKAL_EXP" t2 ≤ getPositionKm "UTKAL_EXP" t1) ∧
    (∀ t1 t2 : ℚ, 95 ≤ t1 → t1 < t2 → t2 ≤ 125 →
      getPositionKm "UTKAL_EXP" t2 ≤ getPositionKm "UTKAL_EXP" t1) := by
  refine ⟨?_, ?_, ?_, ?_, ?_, ?_, ?_, ?_⟩
  · intro t1 t2 h1 h2 h3
    rw [memu_s1 t1 h1 (by linarith), memu_s1 t2 (by linarith) h3]; linarith
  · intro t1 t2 h1 h2 h3
    rw [memu_s3 t1 h1 (by linarith), memu_s3 t2 (by linarith) h3]; linarith
  · intro t1 t2 h1 h2 h3
    rw [raj_s1 t1 h1 (by linarith), raj_s1 t2 (by linarith) h3]; linarith
  · intro t1 t2 h1 h2 h3
    rw [raj_s2 t1 h1 (by linarith), raj_s2 t2 (by linarith) h3]; linarith
  · intro t1 t2 h1 h2 h3
    rw [jan_s1 t1 h1 (by linarith), jan_s1 t2 (by linarith) h3]; linarith
  · intro t1 t2 h1 h2 h3
    rw [jan_s3 t1 h1 (by linarith), jan_s3 t2 (by linarith) h3]; linarith
  · intro t1 t2 h1 h2 h3
    rw [utkal_s1 t1 h1 (by linarith), utkal_s1 t2 (by linarith) h3]; linarith
  · intro t1 t2 h1 h2 h3
    rw [utkal_s2 t1 h1 (by linarith), utkal_s2 t2 (by linarith) h3]; linarith

/-- C5: each configured train's segment sequence is contiguous in time, the
branch formulas jointly covering every time with no gap (first block of
conjuncts, one per source branch), and the progress is continuous at
every internal segment boundary: just left of each boundary b the value
differs from the value at b by at most a Lipschitz bound that vanishes as
t approaches b, so the left limit equals the value at b (second block,
one leftLimEq fact per boundary). -/
theorem c5_contiguous_and_continuous :
    (∀ t : ℚ, t < 10 → getPositionKm "MEMU_LOCAL" t = 0) ∧
    (∀ t : ℚ, 10 ≤ t → t < 50 → getPositionKm "MEMU_LOCAL" t = t - 10) ∧
    (∀ t : ℚ, 50 ≤ t → t < 60 → getPositionKm "MEMU_LOCAL" t = 40) ∧
    (∀ t : ℚ, 60 ≤ t → t ≤ 85 → getPositionKm "MEMU_LOCAL" t = t - 20) ∧
    (∀ t : ℚ, 85 < t → getPositionKm "MEMU_LOCAL" t = 65) ∧
    (∀ t : ℚ, t < 30 → getPositionKm "RAJDHANI" t = 0) ∧
    (∀ t : ℚ, 30 ≤ t → t < 50 → getPositionKm "RAJDHANI" t = 2 * t - 60) ∧
    (∀ t : ℚ, 50 ≤ t → t ≤ 70 → getPositionKm "RAJDHANI" t = (5 * t - 90) / 4) ∧
    (∀ t : ℚ, 70 < t → getPositionKm "RAJDHANI" t = 65) ∧
    (∀ t : ℚ, t < 60 → getPositionKm "JANSHATABDI" t = 65) ∧
    (∀ t : ℚ, 60 ≤ t → t < 95 → getPositionKm "JANSHATABDI" t = (755 - 5 * t) / 7) ∧
    (∀ t : ℚ, 95 ≤ t → t < 105 → getPositionKm "JANSHATABDI" t = 40) ∧
    (∀ t : ℚ, 105 ≤ t → t ≤ 135 → getPositionKm "JANSHATABDI" t = (540 - 4 * t) / 3) ∧
    (∀ t : ℚ, 135 < t → getPositionKm "JANSHATABDI" t = 0) ∧
    (∀ t : ℚ, t < 65 → getPositionKm "UTKAL_EXP" t = 65) ∧
    (∀ t : ℚ, 65 ≤ t → t < 95 → getPositionKm "UTKAL_EXP" t = (715 - 5 * t) / 6) ∧
    (∀ t : ℚ, 95 ≤ t → t ≤ 125 → getPositionKm "UTKAL_EXP" t = (500 - 4 * t) / 3) ∧
    (∀ t : ℚ, 125 < t → getPositionKm "UTKAL_EXP" t = 0) ∧
    leftLimEq (getPositionKm "MEMU_LOCAL") 10 5 1 ∧
    leftLimEq (getPositionKm "MEMU_LOCAL") 50 5 1 ∧
    leftLimEq (getPositionKm "MEMU_LOCAL") 60 5 1 ∧
    leftLimEq (getPositionKm "MEMU_LOCAL") 85 5 1 ∧
    leftLimEq (getPositionKm "RAJDHANI") 25 5 1 ∧
    leftLimEq (getPositionKm "RAJDHANI") 30 5 1 ∧
    leftLimEq (getPositionKm "RAJDHANI") 50 5 2 ∧
    leftLimEq (getPositionKm "RAJDHANI") 70 5 2 ∧
    leftLimEq (getPositionKm "JANSHATABDI") 50 5 1 ∧
    leftLimEq (getPositionKm "JANSHATABDI") 60 5 1 ∧
    leftLimEq (getPositionKm "JANSHATABDI") 95 5 1 ∧
    leftLimEq (getPositionKm "JANSHATABDI") 105 5 1 ∧
    leftLimEq (getPositionKm "JANSHATABDI") 135 5 2 ∧
    leftLimEq (getPositionKm "UTKAL_EXP") 60 5 1 ∧
    leftLimEq (getPositionKm "UTKAL_EXP") 65 5 1 ∧
    leftLimEq (getPositionKm "UTKAL_EXP") 95 5 1 ∧
    leftLimEq (getPositionKm "UTKAL_EXP") 125 5 2 := by
  have hm10 : getPositionKm "MEMU_LOCAL" 10 = 10 - 10 :=
    memu_s1 10 le_rfl (by norm_num)
  have hm50 : getPositionKm "MEMU_LOCAL" 50 = 40 := memu_s2 50 le_rfl (by norm_num)
  have hm60 : getPositionKm "MEMU_LOCAL" 60 = 60 - 20 :=
    memu_s3 60 le_rfl (by norm_num)
  have hm85 : getPositionKm "MEMU_LOCAL" 85 = 85 - 20 :=
    memu_s3 85 (by norm_num) le_rfl
  have hr25 : getPositionKm "RAJDHANI" 25 = 0 := raj_s0 25 (by norm_num)
  have hr30 : getPositionKm "RAJDHANI" 30 = 2 * 30 - 60 :=
    raj_s1 30 le_rfl (by norm_num)
  have hr50 : getPositionKm "RAJDHANI" 50 = 40 := by
    rw [raj_s2 50 le_rfl (by norm_num)]; norm_num
  have hr70 : getPositionKm "RAJDHANI" 70 = 65 := by
    rw [raj_s2 70 (by norm_num) le_rfl]; norm_num
  have hj50 : getPositionKm "JANSHATABDI" 50 = 65 := jan_s0 50 (by norm_num)
  have hj60 : getPositionKm "JANSHATABDI" 60 = 65 := by
    rw [jan_s1 60 le_rfl (by norm_num)]; norm_num
  have hj95 : getPositionKm "JANSHATABDI" 95 = 40 :=
    jan_s2 95 le_rfl (by norm_num)
  have hj105 : getPositionKm "JANSHATABDI" 105 = 40 := by
    rw [jan_s3 105 le_rfl (by norm_num)]; norm_num
  have hj135 : getPositionKm "JANSHATABDI" 135 = 0 := by
    rw [jan_s3 135 (by norm_num) le_rfl]; norm_num
  have hu60 : getPositionKm "UTKAL_EXP" 60 = 65 := utkal_s0 60 (by norm_num)
  have hu65 : getPositionKm "UTKAL_EXP" 65 = 65 := by
    rw [utkal_s1 65 le_rfl (by norm_num)]; norm_num
  have hu95 : getPositionKm "UTKAL_EXP" 95 = 40 := by
    rw [utkal_s2 95 le_rfl (by norm_num)]; norm_num
  have hu125 : getPositionKm "UTKAL_EXP" 125 = 0 := by
    rw [utkal_s2 125 (by norm_num) le_rfl]; norm_num
  refine ⟨memu_s0, memu_s1, memu_s2, memu_s3, memu_s4, raj_s0, raj_s1, raj_s2,
    raj_s3, jan_s0, jan_s1, jan_s2, jan_s3, jan_s4, utkal_s0, utkal_s1, utkal_s2,
    utkal_s3, ?_, ?_, ?_, ?_, ?_, ?_, ?_, ?_, ?_, ?_, ?_, ?_, ?_, ?_, ?_, ?_, ?_⟩
  · intro t h1 h2
    rw [memu_s0 t h2, hm10, abs_le]; constructor <;> linarith
  · intro t h1 h2
    rw [memu_s1 t (by linarith) h2, hm50, abs_le]; constructor <;> linarith
  · intro t h1 h2
    rw [memu_s2 t (by linarith) h2, hm60, abs_le]; constructor <;> linarith
  · intro t h1 h2
    rw [memu_s3 t (by linarith) (le_of_lt h2), hm85, abs_le]
    constructor <;> linarith
  · intro t h1 h2
    rw [raj_s0 t (by linarith), hr25, abs_le]; constructor <;> linarith
  · intro t h1 h2
    rw [raj_s0 t h2, hr30, abs_le]; constructor <;> linarith
  · intro t h1 h2
    rw [raj_s1 t (by linarith) h2, hr50, abs_le]; constructor <;> linarith
  · intro t h1 h2
    rw [raj_s2 t (by linarith) (le_of_lt h2), hr70, abs_le]
    constructor <;> linarith
  · intro t h1 h2
    rw [jan_s0 t (by linarith), hj50, abs_le]; constructor <;> linarith
  · intro t h1 h2
    rw [jan_s0 t h2, hj60, abs_le]; constructor <;> linarith
  · intro t h1 h2
    rw [jan_s1 t (by linarith) h2, hj95, abs_le]; constructor <;> linarith
  · intro t h1 h2
    rw [jan_s2 t (by linarith) h2, hj105, abs_le]; constructor <;> linarith
  · intro t h1 h2
    rw [jan_s3 t (by linarith) (le_of_lt h2), hj135, abs_le]
    constructor <;> linarith
  · intro t h1 h2
    rw [utkal_s0 t (by linarith), hu60, abs_le]; constructor <;> linarith
  · intro t h1 h2
    rw [utkal_s0 t h2, hu65, abs_le]; constructor <;> linarith
  · intro t h1 h2
    rw [utkal_s1 t (by linarith) h2, hu95, abs_le]; constructor <;> linarith
  · intro t h1 h2
    rw [utkal_s2 t (by linarith) (le_of_lt h2), hu125, abs_le]
    constructor <;> linarith

/-- Witness for C5: the MEMU_LOCAL linear branch evaluated at t = 30 and its
left-continuity bound at the boundary b = 50 evaluated at t = 49. -/
theorem c5_contiguous_and_continuous_witness :
    getPositionKm "MEMU_LOCAL" 30 = 30 - 10 ∧
    |getPositionKm "MEMU_LOCAL" 49 - getPositionKm "MEMU_LOCAL" 50| ≤ 1 * (50 - 49) := by
  obtain ⟨-, hcov, -, -, -, -, -, -, -, -, -, -, -, -, -, -, -, -, -, hlim, -⟩ :=
    c5_contiguous_and_continuous
  exact ⟨hcov 30 (by norm_num) (by norm_num), hlim 49 (by norm_num) (by norm_num)⟩

/-- Witness for C6: an increasing segment instance for MEMU_LOCAL and a
decreasing segment instance for JANSHATABDI, at concrete times. -/
theorem c6_monotone_within_linear_segments_witness :
    getPositionKm "MEMU_LOCAL" 20 ≤ getPositionKm "MEMU_LOCAL" 25 ∧
    getPositionKm "JANSHATABDI" 80 ≤ getPositionKm "JANSHATABDI" 70 := by
  obtain ⟨hm, -, -, -, hj, -⟩ := c6_monotone_within_linear_segments
  exact ⟨hm 20 25 (by norm_num) (by norm_num) (by norm_num),
    hj 70 80 (by norm_num) (by norm_num) (by norm_num)⟩

/-- C7 counterexample: after one firing of the 500 ms blink interval the Held
opacity is still 1 (on, not off), and after two firings it is 0.2 = 1/5
(off, not on), because the callback reads the visible flag before
flipping it; so the claimed on-off-on sequence — off after one cadence,
back to on after exactly two — does not occur. -/
theorem c7_counterexample :
    (blinkAfter 1).heldOpacity = 1 ∧ (blinkAfter 1).heldOpacity ≠ 1 / 5 ∧
    (blinkAfter 2).heldOpacity = 1 / 5 ∧ (blinkAfter 2).heldOpacity ≠ 1 := by
  refine ⟨rfl, ?_, rfl, ?_⟩
  · show (1 : ℚ) ≠ 1 / 5
    norm_num
  · show (1 / 5 : ℚ) ≠ 1
    norm_num

/-- C7 (amended): after 2c elapsed real time the held entity's visual state
has toggled exactly once, not twice: the first firing at c re-applies on
(opacity 1) since the visible flag starts at true and is read before
being flipped, the second firing at 2c applies off (opacity 0.2); the
sequence is on, on, off, and the state returns to on only at 3c, blinking
with period 2c thereafter. -/
theorem c7_amended_blink_phase :
    (blinkAfter 0).heldOpacity = 1 ∧ (blinkAfter 1).heldOpacity = 1 ∧
    (blinkAfter 2).heldOpacity = 1 / 5 ∧ (blinkAfter 3).heldOpacity = 1 ∧
    (blinkAfter 4).heldOpacity = 1 / 5 :=
  ⟨rfl, rfl, rfl, rfl, rfl⟩

/-- C8: on a reconciliation pass, a snapshot entity without truthy
coordinates contributes no feature wherever it sits in the snapshot —
removing it changes nothing — and every entity with truthy coordinates
still gets its feature rendered regardless of such neighbours. -/
theorem c8_invalid_coords_excluded :
    (∀ (ts1 ts2 : List TrainData) (b : TrainData),
      (truthy b.current_lat && truthy b.current_lon) = false →
      renderFeatures (ts1 ++ b :: ts2) = renderFeatures (ts1 ++ ts2)) ∧
    (∀ (ts : List TrainData) (t : TrainData), t ∈ ts →
      (truthy t.current_lat && truthy t.current_lon) = true →
      toFeature t ∈ renderFeatures ts) := by
  constructor
  · intro ts1 ts2 b hb
    simp [renderFeatures, List.filter_append, List.filter_cons, hb]
  · intro ts t ht hp
    unfold renderFeatures
    exact List.mem_map_of_mem toFeature (List.mem_filter.mpr ⟨ht, hp⟩)

/-- Witness for C8: dropping the coordinate-less sampleBad from a concrete
snapshot leaves the rendered features unchanged, while sampleGood is
still rendered from the same snapshot. -/
theorem c8_invalid_coords_excluded_witness :
    renderFeatures [sampleBad, sampleGood] = renderFeatures [sampleGood] ∧
    toFeature sampleGood ∈ renderFeatures [sampleBad, sampleGood] :=
  ⟨c8_invalid_coords_excluded.1 [] [sampleGood] sampleBad (by decide),
   c8_invalid_coords_excluded.2 [sampleBad, sampleGood] sampleGood
     (by simp) (by decide)⟩

/-- C10: a blink firing replaces only the circle-opacity paint property of
the trains-layer: the feature collection and every other paint property
are unchanged, the installed expression evaluates to 1 for every feature
whose status is not Held, and for Held features it is either 1 or 0.2. -/
theorem c10_blink_changes_only_opacity :
    ∀ (v : Bool) (s : TrainsLayer),
      (applyBlinkTick v s).features = s.features ∧
      (applyBlinkTick v s).circleRadius = s.circleRadius ∧
      (applyBlinkTick v s).circleStrokeWidth = s.circleStrokeWidth ∧
      (applyBlinkTick v s).circleStrokeColor = s.circleStrokeColor ∧
      (applyBlinkTick v s).circleColor = s.circleColor ∧
      (∀ status : String, status ≠ "Held" →
        (applyBlinkTick v s).circleOpacity status = 1) ∧
      ((applyBlinkTick v s).circleOpacity "Held" = 1 ∨
        (applyBlinkTick v s).circleOpacity "Held" = 1 / 5) := by
  intro v s
  refine ⟨rfl, rfl, rfl, rfl, rfl, ?_, ?_⟩
  · intro status hst
    simp [applyBlinkTick, blinkOpacityExpr, hst]
  · cases v
    · right; simp [applyBlinkTick, blinkOpacityExpr]
    · left; simp [applyBlinkTick, blinkOpacityExpr]

/-- Witness for C10 on a concrete layer state: a non-Held status keeps
opacity 1 and the feature collection is untouched. -/
theorem c10_blink_changes_only_opacity_witness :
    (applyBlinkTick false sampleLayer).circleOpacity "Running" = 1 ∧
    (applyBlinkTick false sampleLayer).features = sampleLayer.features :=
  ⟨(c10_blink_changes_only_opacity false sampleLayer).2.2.2.2.2.1 "Running"
     (by decide),
   (c10_blink_changes_only_opacity false sampleLayer).1⟩
